import Mathlib

/-!
Verification development for the fake-messages plugin (`src/src/index.ts`).

The repository is a client-side plugin for a Discord mod loader.  Its core
pieces are:

* a pure identifier validator (`isValidSnowflake`, the regex `^\d{17,19}$`);
* an in-memory cache of `CachedFakeMessage` records mirrored to a
  `localStorage` slot (`loadCache` / `saveCache` / `clearCache` /
  `getCachedMessages`), with a subscription list of zero-argument callbacks
  (`onCacheUpdate` / `notifyCacheUpdate`);
* the compose flow `sendFakeMessage`, which validates the two user ids,
  resolves or creates a direct-message channel through the host runtime,
  builds a Discord-shaped payload (optionally with one rich embed), appends a
  cache record, saves, and hands the payload to the host's `receiveMessage`;
* the compose modal (`FakeMessageModal`), whose `validateForm` / `handleSend`
  gate the UI path into `sendFakeMessage`.

Host-runtime facilities (`localStorage`, `JSON.parse`/`JSON.stringify`,
webpack module lookup, toasts, the channel/message/user modules) are external
collaborators; they are modelled abstractly below, while every piece of the
repository's own logic is translated directly from the TypeScript source.
-/

/-! ## The regex `^\d{17,19}$`

`isValidSnowflake` (line 258) and the modal's field validation use the
JavaScript regex `^\d{17,19}$` via `.test`.  Without the `m` flag, `^`/`$`
anchor at the very start/end of the string, and `\d` is exactly the ASCII
digits; the greedy bounded repetition followed only by the end anchor is
equivalent to the deterministic matcher below: consume between `lo` and `hi`
digits and then require the end of the input. -/

/-- Deterministic matcher for `\d{lo,hi}$` on a list of characters. -/
def digitsThenEnd : Nat → Nat → List Char → Bool
  | lo, _, [] => lo == 0
  | _, 0, _ :: _ => false
  | lo, hi + 1, c :: cs => c.isDigit && digitsThenEnd (lo - 1) hi cs

/-- `/^\d{17,19}$/.test s`, shared by `isValidSnowflake` and the modal. -/
def digitsTest1719 (s : String) : Bool :=
  digitsThenEnd 17 19 s.data

/-- `isValidSnowflake` (index.ts line 258-260). -/
def isValidSnowflake (id : String) : Bool :=
  digitsTest1719 id

/-! ## Data model -/

/-- The optional embed argument of `sendFakeMessage` (`{ title?; description?;
imageUrl? }`).  A missing field is `none`; JavaScript string truthiness makes
`none` and `some ""` both falsy. -/
structure EmbedInput where
  title : Option String
  description : Option String
  imageUrl : Option String
  deriving DecidableEq, Repr

/-- JavaScript truthiness of a `string | undefined` value: `undefined` and the
empty string are falsy, every other string is truthy. -/
def strTruthy : Option String → Bool
  | none => false
  | some t => t != ""

/-- `CachedFakeMessage` (index.ts lines 35-47). -/
structure CachedFakeMessage where
  id : String
  targetUserId : String
  fromUserId : String
  content : String
  embed : Option EmbedInput
  timestamp : Nat
  channelId : String
  deriving DecidableEq, Repr

/-- `DiscordUser` (index.ts lines 8-14); `avatar : string | null` becomes
`Option String`. -/
structure DiscordUser where
  id : String
  username : String
  discriminator : String
  avatar : Option String
  bot : Option Bool
  deriving DecidableEq, Repr

/-- One entry of `DiscordChannel.recipients`, which the host may populate with
plain id strings or with user records (handled at index.ts lines 145-147). -/
inductive Recipient where
  | rid (s : String)
  | ruser (u : DiscordUser)
  deriving DecidableEq, Repr

/-- `typeof r === 'string' ? r : r.id` (index.ts line 146). -/
def Recipient.toId : Recipient → String
  | .rid s => s
  | .ruser u => u.id

/-- `DiscordChannel` (index.ts lines 16-20). -/
structure DiscordChannel where
  id : String
  recipients : Option (List Recipient)
  ctype : Option Nat
  deriving DecidableEq, Repr

/-! ## The cache value and the persisted slot

`this.cache` is declared as `CachedFakeMessage[]`, but `loadCache` assigns
`JSON.parse(cached)` to it without any shape check, so at runtime it can hold
an arbitrary JSON value.  `DynVal.arr rs` is an array of records;
`DynVal.nonArr` stands for any parsed value that is not such an array (a
number, an object, an array of non-records, ...).

`localStorage` and `JSON` are host externals.  The persisted slot is modelled
by the parse class of the stored string: `recListText rs` is a JSON text that
parses to the record array `rs` (what `JSON.stringify` produces from it),
`nonArrText` is a text that parses successfully to a non-array-of-records
value (such as `"5"`), and `invalidText` is a text on which `JSON.parse`
throws. -/

/-- Runtime value of the `cache` field. -/
inductive DynVal where
  | arr (rs : List CachedFakeMessage)
  | nonArr
  deriving DecidableEq, Repr

/-- Parse class of the string stored in the `fake-messages-cache` slot. -/
inductive StoredText where
  | recListText (rs : List CachedFakeMessage)
  | nonArrText
  | invalidText
  deriving DecidableEq, Repr

/-- `JSON.parse` on a stored text: `invalidText` throws (`Except.error`),
the other classes return the corresponding runtime value. -/
def jsonParse : StoredText → Except Unit DynVal
  | .recListText rs => .ok (.arr rs)
  | .nonArrText => .ok .nonArr
  | .invalidText => .error ()

/-- `JSON.stringify` of the cache value (it never throws on these values;
record arrays serialise to a text that parses back to an equal array). -/
def jsonStringify : DynVal → StoredText
  | .arr rs => .recListText rs
  | .nonArr => .nonArrText

/-! ## Plugin state

Callbacks are identified by their JavaScript function identity; `Nat` ids
model reference equality (`indexOf` compares references).  `setThrows` /
`getThrows` model whether the host's `localStorage.setItem` / `getItem`
throw (quota errors, privacy modes); the `try`/`catch` blocks in the source
catch exactly these together with `JSON.parse` failures. -/

structure PluginState where
  cache : DynVal
  storage : Option StoredText
  callbacks : List Nat
  setThrows : Bool
  getThrows : Bool
  deriving DecidableEq, Repr

/-- `notifyCacheUpdate` (index.ts lines 96-98): invokes every callback in the
list once, in order.  The model returns the list of invoked callback ids. -/
def notifyCacheUpdate (s : PluginState) : List Nat :=
  s.callbacks

/-- `loadCache` (index.ts lines 64-75): reads the slot; on a present value,
assigns `JSON.parse(cached)` to `cache` (no shape check); any exception from
`getItem` or `JSON.parse` is caught and logged; `notifyCacheUpdate` always
runs afterwards.  Returns the new state and the invoked callbacks. -/
def loadCache (s : PluginState) : PluginState × List Nat :=
  let s' :=
    if s.getThrows then s
    else
      match s.storage with
      | none => s
      | some t =>
        match jsonParse t with
        | .error _ => s
        | .ok v => { s with cache := v }
  (s', notifyCacheUpdate s')

/-- `saveCache` (index.ts lines 77-84): `setItem(key, JSON.stringify(cache))`
then `notifyCacheUpdate()`, all inside one `try`; when `setItem` throws, the
error is only logged and — the call to `notifyCacheUpdate` being inside the
`try` — no callback is invoked. -/
def saveCache (s : PluginState) : PluginState × List Nat :=
  if s.setThrows then (s, [])
  else
    let s' := { s with storage := some (jsonStringify s.cache) }
    (s', notifyCacheUpdate s')

/-- `onCacheUpdate` (index.ts lines 87-94): pushes the callback. -/
def onCacheUpdate (s : PluginState) (c : Nat) : PluginState :=
  { s with callbacks := s.callbacks ++ [c] }

/-- The unsubscribe closure returned by `onCacheUpdate` (index.ts lines
90-93): `idx = indexOf(callback); if (idx !== -1) splice(idx, 1)`. -/
def unsubUpdate (c : Nat) (cbs : List Nat) : List Nat :=
  match cbs.findIdx? (fun x => x == c) with
  | some i => cbs.eraseIdx i
  | none => cbs

/-- Running the unsubscribe closure on the plugin state. -/
def runUnsubscribe (s : PluginState) (c : Nat) : PluginState :=
  { s with callbacks := unsubUpdate c s.callbacks }

/-- `getCachedMessages` (index.ts lines 308-310): `[...this.cache]`, a
defensive copy.  Spreading a non-array value would throw in JavaScript; that
branch is never reached in the theorems below, which carry the invariant
`cache = .arr rs`. -/
def getCachedMessages (s : PluginState) : List CachedFakeMessage :=
  match s.cache with
  | .arr rs => rs
  | .nonArr => []

/-- The cache append of `sendFakeMessage` (index.ts lines 224-234):
`this.cache.push(record); this.saveCache()`.  `push` on a non-array value
throws a `TypeError`, modelled as `none` (the compose flow's outer `catch`
picks it up). -/
def appendRecord (s : PluginState) (r : CachedFakeMessage) :
    Option (PluginState × List Nat) :=
  match s.cache with
  | .arr rs => some (saveCache { s with cache := .arr (rs ++ [r]) })
  | .nonArr => none

/-- `clearCache` (index.ts lines 312-320): empties the cache, saves, then
shows a success toast.  Returns (state, invoked callbacks). -/
def clearCache (s : PluginState) : PluginState × List Nat :=
  saveCache { s with cache := .arr [] }

/-! ## Host bridge environment

`sendFakeMessage` resolves three host modules through `waitForModule` and
explicitly checks that `getPrivateChannels`/`openPrivateChannel` and
`receiveMessage` exist, throwing into its own outer `catch` when they do not.
The environment below packages those externals for one invocation:
`channelsModuleOk`/`messageModuleOk` say whether the required functions are
present; `privateChannels` is `Object.values(getPrivateChannels())` in
enumeration order; `openPrivateChannel` is the host's channel-open call
(`Except.error` = rejected promise); `getUser` the user lookup;
`receiveThrows` whether `receiveMessage` throws; the remaining fields sample
the ambient clock and the random id suffix. -/
structure HostEnv where
  channelsModuleOk : Bool
  messageModuleOk : Bool
  privateChannels : List DiscordChannel
  openPrivateChannel : String → Except Unit DiscordChannel
  getUser : String → Option DiscordUser
  receiveThrows : Bool
  nowMs : Nat
  nowMs2 : Nat
  randSuffix : String
  isoNow : String
  isoNow2 : String

/-- The DM-channel search loop (index.ts lines 142-154): first channel whose
normalised recipient ids contain the target. -/
def findDmChannel (channels : List DiscordChannel) (targetUserId : String) :
    Option DiscordChannel :=
  channels.find? fun ch =>
    match ch.recipients with
    | some rs => (rs.map Recipient.toId).contains targetUserId
    | none => false

/-- The channel `sendFakeMessage` ends up with: an existing DM channel if the
search finds one, otherwise the result of `openPrivateChannel` (`none` when
that call rejects). -/
def resolvedChannel (env : HostEnv) (targetUserId : String) :
    Option DiscordChannel :=
  match findDmChannel env.privateChannels targetUserId with
  | some ch => some ch
  | none => (env.openPrivateChannel targetUserId).toOption

/-! ## Payload -/

/-- Footer of the rich embed (index.ts lines 209-214). -/
structure MessageEmbedFooter where
  text : String
  icon_url : Option String
  deriving DecidableEq, Repr

/-- `image: { url }` of the rich embed (index.ts line 218). -/
structure MessageEmbedImage where
  url : String
  deriving DecidableEq, Repr

/-- The rich embed attached to the payload (index.ts lines 203-219). -/
structure MessageEmbed where
  etype : String
  title : Option String
  description : Option String
  color : Nat
  timestamp : String
  footer : MessageEmbedFooter
  image : Option MessageEmbedImage
  deriving DecidableEq, Repr

/-- The Discord-shaped message payload (index.ts lines 183-199).  `type` is
renamed `ptype` (keyword). -/
structure FakeMessagePayload where
  id : String
  channel_id : String
  content : String
  author : DiscordUser
  timestamp : String
  embeds : List MessageEmbed
  attachments : List Unit
  flags : Nat
  mention_everyone : Bool
  mentions : List Unit
  mention_roles : List Unit
  pinned : Bool
  ptype : Nat
  tts : Bool
  edited_timestamp : Option String
  deriving DecidableEq, Repr

/-- Payload construction (index.ts lines 183-222): the base object, then —
only when an embed argument is present and at least one of its three fields
is truthy — one rich embed with fixed color `0x00ff00`, a footer crediting
the sender (avatar URL only when `author.avatar` is truthy), and an `image`
only when `imageUrl` is truthy. -/
def buildPayload (messageId channelId content : String) (fromUser : DiscordUser)
    (isoNow isoEmbed : String) (embed? : Option EmbedInput) :
    FakeMessagePayload :=
  let base : FakeMessagePayload :=
    { id := messageId
      channel_id := channelId
      content := content
      author := fromUser
      timestamp := isoNow
      embeds := []
      attachments := []
      flags := 0
      mention_everyone := false
      mentions := []
      mention_roles := []
      pinned := false
      ptype := 0
      tts := false
      edited_timestamp := none }
  match embed? with
  | none => base
  | some embed =>
    if strTruthy embed.title || strTruthy embed.description ||
        strTruthy embed.imageUrl then
      let footerIcon : Option String :=
        if strTruthy fromUser.avatar then
          match fromUser.avatar with
          | some av =>
            some ("https://cdn.discordapp.com/avatars/" ++ fromUser.id ++ "/"
              ++ av ++ ".png")
          | none => none
        else none
      let image : Option MessageEmbedImage :=
        if strTruthy embed.imageUrl then
          match embed.imageUrl with
          | some u => some { url := u }
          | none => none
        else none
      { base with
          embeds :=
            [{ etype := "rich"
               title := embed.title
               description := embed.description
               color := 0x00ff00
               timestamp := isoEmbed
               footer :=
                 { text := "Sent by " ++ fromUser.username ++ "#"
                     ++ fromUser.discriminator
                   icon_url := footerIcon }
               image := image }] }
    else base

/-! ## Toasts and the result of one `sendFakeMessage` invocation -/

inductive ToastType where
  | success
  | failure
  deriving DecidableEq, Repr

structure Toast where
  message : String
  ttype : ToastType
  timeout : Nat
  deriving DecidableEq, Repr

/-- Everything observable about one `sendFakeMessage` run: the returned
boolean, the plugin state afterwards, the toasts shown, the callbacks invoked
(by `saveCache`), and the `receiveMessage(channelId, payload)` calls made. -/
structure SendResult where
  ok : Bool
  state : PluginState
  toasts : List Toast
  fired : List Nat
  injected : List (String × FakeMessagePayload)
  deriving Repr

/-- The tail of `sendFakeMessage` once a DM channel is in hand (index.ts
lines 171-253): placeholder user fallback, id generation, payload build,
cache push + save, injection, toasts; a `TypeError` from pushing onto a
non-array cache or a throw from `receiveMessage` lands in the outer `catch`
(generic failure toast, `false`). -/
def sendWithChannel (env : HostEnv) (s : PluginState)
    (targetUserId fromUserId content : String) (embed? : Option EmbedInput)
    (dmChannel : DiscordChannel) : SendResult :=
  let fromUser : DiscordUser :=
    (env.getUser fromUserId).getD
      { id := fromUserId, username := "Unknown User", discriminator := "0000"
        avatar := none, bot := none }
  let messageId := "fake-" ++ toString env.nowMs ++ "-" ++ env.randSuffix
  let payload :=
    buildPayload messageId dmChannel.id content fromUser env.isoNow
      env.isoNow2 embed?
  let record : CachedFakeMessage :=
    { id := messageId
      targetUserId := targetUserId
      fromUserId := fromUserId
      content := content
      embed := embed?
      timestamp := env.nowMs2
      channelId := dmChannel.id }
  match appendRecord s record with
  | none =>
    { ok := false, state := s
      toasts := [⟨"Failed to send fake message", .failure, 3000⟩]
      fired := [], injected := [] }
  | some (s', fired) =>
    if env.receiveThrows then
      { ok := false, state := s'
        toasts := [⟨"Failed to send fake message", .failure, 3000⟩]
        fired := fired, injected := [] }
    else
      { ok := true, state := s'
        toasts := [⟨"Fake message sent to user " ++ targetUserId, .success, 3000⟩]
        fired := fired, injected := [(dmChannel.id, payload)] }

/-- `sendFakeMessage` (index.ts lines 100-255). -/
def sendFakeMessage (env : HostEnv) (s : PluginState)
    (targetUserId fromUserId content : String)
    (embed? : Option EmbedInput) : SendResult :=
  if !(isValidSnowflake targetUserId) || !(isValidSnowflake fromUserId) then
    { ok := false, state := s
      toasts := [⟨"Invalid user ID format", .failure, 3000⟩]
      fired := [], injected := [] }
  else if !env.channelsModuleOk || !env.messageModuleOk then
    { ok := false, state := s
      toasts := [⟨"Failed to send fake message", .failure, 3000⟩]
      fired := [], injected := [] }
  else
    match findDmChannel env.privateChannels targetUserId with
    | some ch => sendWithChannel env s targetUserId fromUserId content embed? ch
    | none =>
      match env.openPrivateChannel targetUserId with
      | .error _ =>
        { ok := false, state := s
          toasts := [⟨"Failed to create DM channel with target user", .failure, 3000⟩]
          fired := [], injected := [] }
      | .ok ch => sendWithChannel env s targetUserId fromUserId content embed? ch

/-! ## The compose modal (`FakeMessageModal`) -/

/-- The form fields of the modal's state that `validateForm`/`handleSend`
read. -/
structure ModalState where
  targetUserId : String
  fromUserId : String
  messageContent : String
  embedTitle : String
  embedDescription : String
  embedImageUrl : String
  showEmbed : Bool
  deriving DecidableEq, Repr

/-- JavaScript `String.prototype.trim`: strip leading and trailing
whitespace. -/
def jsTrim (s : String) : String :=
  ⟨((s.data.dropWhile Char.isWhitespace).reverse.dropWhile
      Char.isWhitespace).reverse⟩

/-- `validateForm` (FakeMessageModal lines 604-631): an error per field —
missing/regex-failing ids, untrimmed-empty content — and the final return
`no errors && !!targetUserId && !!fromUserId && !!messageContent.trim()`. -/
def validateForm (targetUserId fromUserId messageContent : String) : Bool :=
  let errTarget := targetUserId == "" || !(digitsTest1719 targetUserId)
  let errFrom := fromUserId == "" || !(digitsTest1719 fromUserId)
  let errContent := jsTrim messageContent == ""
  (!errTarget && !errFrom && !errContent) && targetUserId != ""
    && fromUserId != "" && jsTrim messageContent != ""

/-- The arguments `handleSend` would pass to `sendFakeMessage`. -/
structure SendArgs where
  targetUserId : String
  fromUserId : String
  content : String
  embed : Option EmbedInput
  deriving DecidableEq, Repr

/-- `handleSend` (FakeMessageModal lines 633-673): returns early when
`validateForm` fails, otherwise calls `sendFakeMessage` with the form fields
and — only when the embed section is shown — an embed object holding the
three (possibly empty) embed strings.  The model returns the arguments of
that call, `none` when no call is made. -/
def handleSend (st : ModalState) : Option SendArgs :=
  if validateForm st.targetUserId st.fromUserId st.messageContent then
    some
      { targetUserId := st.targetUserId
        fromUserId := st.fromUserId
        content := st.messageContent
        embed :=
          if st.showEmbed then
            some ⟨some st.embedTitle, some st.embedDescription,
              some st.embedImageUrl⟩
          else none }
  else none

/-! ## Operation sequences over the cache store

Used to state that an unsubscribed callback is never invoked by any later
mutation. -/

/-- One cache-store operation. -/
inductive CacheOp where
  | load
  | append (r : CachedFakeMessage)
  | clear
  | subscribe (c : Nat)
  | unsubscribe (c : Nat)
  deriving DecidableEq, Repr

/-- Step one operation; returns the new state and the callbacks it invoked.
A failing `append` (push on a non-array) invokes none. -/
def stepOp (s : PluginState) : CacheOp → PluginState × List Nat
  | .load => loadCache s
  | .append r =>
    match appendRecord s r with
    | some p => p
    | none => (s, [])
  | .clear => clearCache s
  | .subscribe c => (onCacheUpdate s c, [])
  | .unsubscribe c => (runUnsubscribe s c, [])

/-- Run a sequence of operations, collecting each step's invoked-callback
list. -/
def runOps (s : PluginState) : List CacheOp → PluginState × List (List Nat)
  | [] => (s, [])
  | op :: ops =>
    let p := stepOp s op
    let q := runOps p.1 ops
    (q.1, p.2 :: q.2)

/-! ## Concrete states and environments used by witnesses and counterexamples -/

/-- A state in which the same callback (id 7) has been registered twice via
`onCacheUpdate`. -/
def dupSubState : PluginState :=
  onCacheUpdate (onCacheUpdate ⟨.arr [], none, [], false, false⟩ 7) 7

/-- A state with one subscribed callback (id 9) and a storage slot whose
`setItem` throws. -/
def savefailState : PluginState :=
  ⟨.arr [], some (.recListText []), [9], true, false⟩

/-- Concrete states for the C3 witness: one append with a working `setItem`,
one with a throwing `setItem`. -/
def c3RecA : CachedFakeMessage := ⟨"a", "t", "f", "one", none, 1, "ch"⟩

def c3RecB : CachedFakeMessage := ⟨"b", "t", "f", "two", none, 2, "ch"⟩

def c3StOk : PluginState := ⟨.arr [c3RecA], none, [], false, false⟩

def c3StOk' : PluginState :=
  ⟨.arr [c3RecA, c3RecB], some (.recListText [c3RecA, c3RecB]), [], false, false⟩

def c3StBad : PluginState := ⟨.arr [c3RecA], some .invalidText, [], true, false⟩

def c3StBad' : PluginState :=
  ⟨.arr [c3RecA, c3RecB], some .invalidText, [], true, false⟩

/-- The concrete host environment of the happy-path witness: one existing DM
channel `"chan-1"` whose recipients contain the target id. -/
def happyChannel : DiscordChannel :=
  ⟨"chan-1", some [.rid "111111111111111111"], some 1⟩

def happyEnv : HostEnv :=
  { channelsModuleOk := true
    messageModuleOk := true
    privateChannels := [happyChannel]
    openPrivateChannel := fun _ => .error ()
    getUser := fun _ => none
    receiveThrows := false
    nowMs := 0
    nowMs2 := 0
    randSuffix := "r"
    isoNow := "t"
    isoNow2 := "t" }

def emptyState : PluginState := ⟨.arr [], none, [], false, false⟩

/-- The concrete host environment of the channel-open-failure witness: no DM
channels, rejecting channel-open call. -/
def rejectEnv : HostEnv :=
  { channelsModuleOk := true
    messageModuleOk := true
    privateChannels := []
    openPrivateChannel := fun _ => .error ()
    getUser := fun _ => none
    receiveThrows := false
    nowMs := 0
    nowMs2 := 0
    randSuffix := "r"
    isoNow := "t"
    isoNow2 := "t" }

/-- The concrete host environment of the injection-failure witness: existing
channel found, `receiveMessage` throws. -/
def throwingEnv : HostEnv :=
  { channelsModuleOk := true
    messageModuleOk := true
    privateChannels := [happyChannel]
    openPrivateChannel := fun _ => .error ()
    getUser := fun _ => none
    receiveThrows := true
    nowMs := 0
    nowMs2 := 0
    randSuffix := "r"
    isoNow := "t"
    isoNow2 := "t" }

/-! ## Theorems -/

/-- `digitsThenEnd lo hi` accepts exactly the all-digit strings whose length
lies between `lo` and `hi`. -/
theorem digitsThenEnd_eq_true_iff (cs : List Char) :
    ∀ lo hi : Nat, digitsThenEnd lo hi cs = true ↔
      (lo ≤ cs.length ∧ cs.length ≤ hi ∧ cs.all Char.isDigit = true) := by
  induction cs with
  | nil =>
    intro lo hi
    simp only [digitsThenEnd, beq_iff_eq, List.length_nil, List.all_nil,
      and_true]
    omega
  | cons c cs ih =>
    intro lo hi
    cases hi with
    | zero => simp [digitsThenEnd]
    | succ h =>
      rw [digitsThenEnd]
      simp only [Bool.and_eq_true, ih (lo - 1) h, List.all_cons,
        List.length_cons]
      constructor
      · rintro ⟨hd, h1, h2, h3⟩
        exact ⟨by omega, by omega, hd, h3⟩
      · rintro ⟨h1, h2, hd, h3⟩
        exact ⟨hd, by omega, by omega, h3⟩

/-- C2: for every string `s`, `isValidSnowflake s` is true iff `s` consists
of 17 to 19 ASCII digits and nothing else; in particular
`"123456789012345678"` yields true, while `"12345"` and `"abc12345678901234"`
yield false.  (Purity holds by construction: the function is a pure `def`
over its argument.) -/
theorem isValidSnowflake_iff_digits1719 :
    (∀ s : String, isValidSnowflake s = true ↔
      (17 ≤ s.length ∧ s.length ≤ 19 ∧ s.data.all Char.isDigit = true))
    ∧ isValidSnowflake "123456789012345678" = true
    ∧ isValidSnowflake "12345" = false
    ∧ isValidSnowflake "abc12345678901234" = false := by
  refine ⟨fun s => ?_, by decide, by decide, by decide⟩
  exact digitsThenEnd_eq_true_iff s.data 17 19

/-- Unfolding of the unsubscribe closure on a nonempty list: it removes the
head when the head is the callback, and otherwise recurses. -/
theorem unsubUpdate_cons (c x : Nat) (xs : List Nat) :
    unsubUpdate c (x :: xs) =
      if x == c then xs else x :: unsubUpdate c xs := by
  unfold unsubUpdate
  rw [List.findIdx?_cons]
  by_cases h : x == c
  · simp [h, List.eraseIdx]
  · simp only [h, Bool.false_eq_true, if_false, List.findIdx?_succ]
    cases h2 : List.findIdx? (fun y => y == c) xs with
    | none => simp
    | some i => simp [List.eraseIdx_cons_succ]

/-- The unsubscribe closure removes exactly the first occurrence of the
callback, like `List.erase`. -/
theorem unsubUpdate_eq_erase (c : Nat) (cbs : List Nat) :
    unsubUpdate c cbs = cbs.erase c := by
  induction cbs with
  | nil => rfl
  | cons x xs ih => rw [unsubUpdate_cons, List.erase_cons, ih]

/-- C5 (amended): the unsubscribe closure returned by `onCacheUpdate` removes
exactly the first occurrence of that callback from the subscription list;
when the callback is absent the call is a no-op, and when the callback is
registered at most once a second call is a no-op — but when the same callback
was registered more than once, a repeated call removes a further
occurrence (see the counterexample). -/
theorem unsubscribe_removes_first_occurrence (c : Nat) (s : PluginState) :
    (runUnsubscribe s c).callbacks = s.callbacks.erase c
    ∧ (c ∉ s.callbacks → runUnsubscribe s c = s)
    ∧ (s.callbacks.count c ≤ 1 →
        runUnsubscribe (runUnsubscribe s c) c = runUnsubscribe s c) := by
  refine ⟨unsubUpdate_eq_erase c s.callbacks, fun h => ?_, fun h => ?_⟩
  · show { s with callbacks := unsubUpdate c s.callbacks } = s
    rw [unsubUpdate_eq_erase, List.erase_of_not_mem h]
  · have hz : (s.callbacks.erase c).count c = 0 := by
      rw [List.count_erase_self]
      omega
    show { s with callbacks := unsubUpdate c (unsubUpdate c s.callbacks) } =
      { s with callbacks := unsubUpdate c s.callbacks }
    simp only [unsubUpdate_eq_erase]
    rw [List.erase_of_not_mem (List.count_eq_zero.mp hz)]

/-- C5 (counterexample): with the same callback registered twice, calling the
returned unsubscribe a second time is not a no-op — it removes the other
registration as well. -/
theorem unsubscribe_twice_not_noop :
    runUnsubscribe (runUnsubscribe dupSubState 7) 7 ≠
      runUnsubscribe dupSubState 7 := by decide

/-- Witness for the amended C5 theorem at a concrete state (callback list
`[3]`). -/
theorem unsubscribe_removes_first_occurrence_witness :
    runUnsubscribe ⟨.arr [], none, [3], false, false⟩ 7 =
        ⟨.arr [], none, [3], false, false⟩
    ∧ runUnsubscribe
          (runUnsubscribe ⟨.arr [], none, [3], false, false⟩ 3) 3 =
        runUnsubscribe ⟨.arr [], none, [3], false, false⟩ 3 :=
  ⟨(unsubscribe_removes_first_occurrence 7 ⟨.arr [], none, [3], false, false⟩).2.1
      (by decide),
    (unsubscribe_removes_first_occurrence 3 ⟨.arr [], none, [3], false, false⟩).2.2
      (by decide)⟩

/-- `loadCache` leaves the subscription list untouched. -/
theorem loadCache_callbacks (s : PluginState) :
    (loadCache s).1.callbacks = s.callbacks := by
  unfold loadCache
  cases s.getThrows with
  | true => rfl
  | false =>
    cases hs : s.storage with
    | none => simp [hs]
    | some t => cases t <;> simp [hs, jsonParse]

/-- `loadCache` invokes exactly the currently subscribed callbacks, once
each, whatever the slot content or read/parse outcome. -/
theorem loadCache_fired (s : PluginState) :
    (loadCache s).2 = s.callbacks := by
  have h := loadCache_callbacks s
  unfold loadCache at h ⊢
  exact h

/-- `saveCache` invokes the currently subscribed callbacks when the write
succeeds, and none at all when `setItem` throws. -/
theorem saveCache_fired (s : PluginState) :
    (saveCache s).2 = if s.setThrows = true then [] else s.callbacks := by
  unfold saveCache
  cases s.setThrows <;> rfl

/-- `saveCache` leaves the subscription list untouched. -/
theorem saveCache_callbacks (s : PluginState) :
    (saveCache s).1.callbacks = s.callbacks := by
  unfold saveCache
  cases s.setThrows <;> rfl

/-- One step neither fires nor retains an absent callback, unless the step
subscribes it. -/
theorem stepOp_not_mem (s : PluginState) (op : CacheOp) (c : Nat)
    (hmem : c ∉ s.callbacks) (hop : op ≠ CacheOp.subscribe c) :
    c ∉ (stepOp s op).1.callbacks ∧ c ∉ (stepOp s op).2 := by
  cases op with
  | load =>
    constructor
    · rw [stepOp, loadCache_callbacks]; exact hmem
    · rw [stepOp, loadCache_fired]; exact hmem
  | append r =>
    rw [stepOp]
    cases hc : s.cache with
    | nonArr =>
      have ha : appendRecord s r = none := by unfold appendRecord; rw [hc]
      rw [ha]
      exact ⟨hmem, by simp⟩
    | arr rs =>
      have ha : appendRecord s r =
          some (saveCache { s with cache := .arr (rs ++ [r]) }) := by
        unfold appendRecord
        rw [hc]
      rw [ha]
      unfold saveCache notifyCacheUpdate
      cases h : s.setThrows <;> simp [h, hmem]
  | clear =>
    rw [stepOp]
    unfold clearCache saveCache notifyCacheUpdate
    cases h : s.setThrows <;> simp [h, hmem]
  | subscribe c' =>
    have hne : c' ≠ c := fun h => hop (by rw [h])
    rw [stepOp, onCacheUpdate]
    simp only [List.mem_append, List.mem_singleton]
    exact ⟨fun h => h.elim hmem (fun h' => hne h'.symm), by simp⟩
  | unsubscribe c' =>
    rw [stepOp, runUnsubscribe]
    refine ⟨fun h => hmem ?_, by simp⟩
    rw [unsubUpdate_eq_erase] at h
    exact List.erase_subset _ _ h

/-- Over any sequence of cache-store operations that never re-subscribes it,
a callback absent from the subscription list is never invoked. -/
theorem runOps_not_fired (ops : List CacheOp) :
    ∀ (s : PluginState) (c : Nat), c ∉ s.callbacks →
      (∀ op ∈ ops, op ≠ CacheOp.subscribe c) →
      ∀ f ∈ (runOps s ops).2, c ∉ f := by
  induction ops with
  | nil => intro s c _ _ f hf; simp [runOps] at hf
  | cons op ops ih =>
    intro s c hmem hops f hf
    have hstep := stepOp_not_mem s op c hmem (hops op (by simp))
    rw [runOps] at hf
    simp only [List.mem_cons] at hf
    cases hf with
    | inl h => rw [h]; exact hstep.2
    | inr h =>
      exact ih (stepOp s op).1 c hstep.1
        (fun o ho => hops o (by simp [ho])) f h

/-- C4 (amended): `load` invokes every currently subscribed callback exactly
once (the fired list is the subscription list itself) regardless of
read/parse failure, but `save` — hence `append` and `clear` — invokes the
callbacks only when the storage write succeeds and invokes none when
`setItem` throws (the notification sits inside the `try`); a callback whose
registration count was at most one is gone after its unsubscribe runs, and a
callback absent from the subscription list is never invoked by any later
mutation that does not re-subscribe it. -/
theorem cache_mutation_notifications (s : PluginState) (c : Nat)
    (ops : List CacheOp) :
    (loadCache s).2 = s.callbacks
    ∧ (saveCache s).2 = (if s.setThrows = true then [] else s.callbacks)
    ∧ (s.callbacks.count c ≤ 1 → c ∉ (runUnsubscribe s c).callbacks)
    ∧ (c ∉ s.callbacks → (∀ op ∈ ops, op ≠ CacheOp.subscribe c) →
        ∀ f ∈ (runOps s ops).2, c ∉ f) := by
  refine ⟨loadCache_fired s, saveCache_fired s, fun h => ?_,
    runOps_not_fired ops s c⟩
  show c ∉ unsubUpdate c s.callbacks
  rw [unsubUpdate_eq_erase]
  intro hc
  have := List.count_erase_self c s.callbacks
  have h1 : 1 ≤ (s.callbacks.erase c).count c := List.one_le_count_iff.mpr hc
  omega

/-- C4 (counterexample): with callback 9 subscribed and `setItem` throwing,
the append mutation (`cache.push` + `saveCache`) invokes no callback at all —
not "exactly once regardless of whether the persistence write succeeds or
fails" as claimed. -/
theorem append_save_failure_fires_no_callback :
    (appendRecord savefailState ⟨"m", "t", "f", "c", none, 0, "ch"⟩).map
        Prod.snd = some []
    ∧ savefailState.callbacks = [9] := by decide

/-- Witness for the amended C4 theorem at a concrete state (callback list
`[3]`, failing `setItem`) and the operation sequence `[load, clear]`. -/
theorem cache_mutation_notifications_witness :
    (loadCache savefailState).2 = savefailState.callbacks
    ∧ (saveCache savefailState).2 =
        (if savefailState.setThrows = true then [] else savefailState.callbacks)
    ∧ 9 ∉ (runUnsubscribe savefailState 9).callbacks
    ∧ 5 ∉ ((runOps savefailState [CacheOp.load, CacheOp.clear]).2.headD []) := by
  obtain ⟨h1, h2, h3, -⟩ := cache_mutation_notifications savefailState 9 []
  obtain ⟨-, -, -, h4⟩ :=
    cache_mutation_notifications savefailState 5 [CacheOp.load, CacheOp.clear]
  exact ⟨h1, h2, h3 (by decide),
    h4 (by decide) (by decide) _ (by decide)⟩

/-- C3: appending a record and snapshotting yields a sequence ending in that
record, the append is visible in memory even when the storage write fails
(no rollback), and reloading the persisted slot right after a successful
save reproduces a snapshot equal to the in-memory one; when `setItem`
throws, the persisted slot is left untouched. -/
theorem append_snapshot_roundtrip (s : PluginState)
    (rs : List CachedFakeMessage) (r : CachedFakeMessage)
    (s' : PluginState) (fired : List Nat)
    (hcache : s.cache = DynVal.arr rs)
    (happ : appendRecord s r = some (s', fired)) :
    (getCachedMessages s').getLast? = some r
    ∧ s'.cache = DynVal.arr (rs ++ [r])
    ∧ (s.setThrows = false →
        getCachedMessages (loadCache s').1 = getCachedMessages s')
    ∧ (s.setThrows = true → s'.storage = s.storage) := by
  have ha : appendRecord s r =
      some (saveCache { s with cache := .arr (rs ++ [r]) }) := by
    unfold appendRecord
    rw [hcache]
  rw [ha] at happ
  cases hst : s.setThrows with
  | true =>
    have hsave : saveCache { s with cache := DynVal.arr (rs ++ [r]) } =
        ({ s with cache := DynVal.arr (rs ++ [r]) }, []) := by
      unfold saveCache
      simp [hst]
    rw [hsave] at happ
    obtain ⟨hs', -⟩ := Prod.mk.injEq .. ▸ (Option.some_inj.mp happ)
    subst hs'
    refine ⟨?_, rfl, fun hfalse => by simp [hst] at hfalse, fun _ => rfl⟩
    show (rs ++ [r]).getLast? = some r
    exact List.getLast?_concat rs
  | false =>
    have hsave : saveCache { s with cache := DynVal.arr (rs ++ [r]) } =
        (⟨DynVal.arr (rs ++ [r]), some (.recListText (rs ++ [r])),
            s.callbacks, s.setThrows, s.getThrows⟩,
          s.callbacks) := by
      unfold saveCache notifyCacheUpdate
      simp [hst, jsonStringify]
    rw [hsave] at happ
    obtain ⟨hs', -⟩ := Prod.mk.injEq .. ▸ (Option.some_inj.mp happ)
    subst hs'
    refine ⟨List.getLast?_concat rs, rfl, fun _ => ?_,
      fun htrue => by simp [hst] at htrue⟩
    unfold loadCache
    cases s.getThrows with
    | true => rfl
    | false => simp [jsonParse, getCachedMessages]

/-- Witness for C3 at the two concrete appends. -/
theorem append_snapshot_roundtrip_witness :
    ((getCachedMessages c3StOk').getLast? = some c3RecB
      ∧ getCachedMessages (loadCache c3StOk').1 = getCachedMessages c3StOk')
    ∧ ((getCachedMessages c3StBad').getLast? = some c3RecB
      ∧ c3StBad'.cache = DynVal.arr ([c3RecA] ++ [c3RecB])
      ∧ c3StBad'.storage = c3StBad.storage) := by
  obtain ⟨h1, -, h3, -⟩ :=
    append_snapshot_roundtrip c3StOk [c3RecA] c3RecB c3StOk' [] (by decide)
      (by decide)
  obtain ⟨g1, g2, -, g4⟩ :=
    append_snapshot_roundtrip c3StBad [c3RecA] c3RecB c3StBad' [] (by decide)
      (by decide)
  exact ⟨⟨h1, h3 rfl⟩, ⟨g1, g2, g4 rfl⟩⟩

/-- C10 (counterexample): a persisted slot that parses as JSON but is not a
record sequence (e.g. the text `"5"`) does not leave the cache equal to the
empty sequence — `loadCache` assigns the parsed non-sequence value to the
cache unchecked. -/
theorem load_nonsequence_not_empty :
    (loadCache ⟨.arr [], some .nonArrText, [], false, false⟩).1.cache =
        DynVal.nonArr
    ∧ (loadCache ⟨.arr [], some .nonArrText, [], false, false⟩).1.cache ≠
        DynVal.arr [] := by decide

/-- C10 (amended): starting from the empty cache, `load` leaves the cache
empty when the slot is absent or its read/parse throws, replaces it with the
parsed record sequence when the text is one, and assigns the parsed value
as-is — without any shape check — when the text parses to something that is
not a record sequence; it never raises (totality of the model) and always
invokes exactly the currently subscribed callbacks afterwards. -/
theorem load_tolerates_malformed_slot (s : PluginState)
    (h : s.cache = DynVal.arr []) :
    (loadCache s).1.cache =
      (match s.getThrows, s.storage with
        | true, _ => DynVal.arr []
        | false, none => DynVal.arr []
        | false, some (.recListText rs) => DynVal.arr rs
        | false, some .nonArrText => DynVal.nonArr
        | false, some .invalidText => DynVal.arr [])
    ∧ (loadCache s).2 = s.callbacks := by
  refine ⟨?_, loadCache_fired s⟩
  unfold loadCache
  cases hg : s.getThrows with
  | true => simpa using h
  | false =>
    cases hs : s.storage with
    | none => simpa using h
    | some t => cases t <;> simp [jsonParse, h]

/-- Witness for the amended C10 theorem on a concrete state holding a
well-formed record sequence. -/
theorem load_tolerates_malformed_slot_witness :
    (loadCache ⟨.arr [], some (.recListText [c3RecA]), [4], false, false⟩).1.cache
        = DynVal.arr [c3RecA]
    ∧ (loadCache ⟨.arr [], some (.recListText [c3RecA]), [4], false, false⟩).2
        = [4] := by
  simpa using load_tolerates_malformed_slot
    ⟨.arr [], some (.recListText [c3RecA]), [4], false, false⟩ rfl

/-- Once a DM channel is in hand and the cache holds a record array, the
compose tail appends exactly one new record — built from the arguments and
the resolved channel id — and returns success precisely when the host's
`receiveMessage` does not throw, with the corresponding single toast. -/
theorem sendWithChannel_spec (env : HostEnv) (s : PluginState)
    (rs : List CachedFakeMessage) (t f content : String)
    (embed? : Option EmbedInput) (ch : DiscordChannel)
    (hcache : s.cache = DynVal.arr rs) :
    (sendWithChannel env s t f content embed? ch).ok = !env.receiveThrows
    ∧ (sendWithChannel env s t f content embed? ch).state.cache =
        DynVal.arr (rs ++
          [⟨"fake-" ++ toString env.nowMs ++ "-" ++ env.randSuffix,
            t, f, content, embed?, env.nowMs2, ch.id⟩])
    ∧ (sendWithChannel env s t f content embed? ch).toasts =
        (if env.receiveThrows
          then [⟨"Failed to send fake message", .failure, 3000⟩]
          else [⟨"Fake message sent to user " ++ t, .success, 3000⟩]) := by
  unfold sendWithChannel
  simp only [appendRecord, hcache]
  unfold saveCache notifyCacheUpdate
  cases hrt : env.receiveThrows <;> cases hst : s.setThrows <;>
    simp [hrt, hst]

/-- C1: with both ids valid, the host modules available, an existing DM
channel `"chan-1"` containing the target among its recipients, no embed, and
a non-throwing injection, the compose flow appends exactly one new record —
with `channelId = "chan-1"`, `content = "hello"`, `embed = none` — to the
cache and returns `true`. -/
theorem compose_happy_path (env : HostEnv) (s : PluginState)
    (rs : List CachedFakeMessage) (ch : DiscordChannel)
    (hcache : s.cache = DynVal.arr rs)
    (hchm : env.channelsModuleOk = true)
    (hmsg : env.messageModuleOk = true)
    (hfind : findDmChannel env.privateChannels "111111111111111111" = some ch)
    (hid : ch.id = "chan-1")
    (hrecv : env.receiveThrows = false) :
    (sendFakeMessage env s "111111111111111111" "222222222222222222"
        "hello" none).ok = true
    ∧ (sendFakeMessage env s "111111111111111111" "222222222222222222"
        "hello" none).state.cache =
        DynVal.arr (rs ++
          [⟨"fake-" ++ toString env.nowMs ++ "-" ++ env.randSuffix,
            "111111111111111111", "222222222222222222", "hello", none,
            env.nowMs2, "chan-1"⟩]) := by
  have hv1 : isValidSnowflake "111111111111111111" = true := by decide
  have hv2 : isValidSnowflake "222222222222222222" = true := by decide
  have hsend : sendFakeMessage env s "111111111111111111"
      "222222222222222222" "hello" none =
      sendWithChannel env s "111111111111111111" "222222222222222222"
        "hello" none ch := by
    unfold sendFakeMessage
    simp [hv1, hv2, hchm, hmsg, hfind]
  rw [hsend]
  obtain ⟨h1, h2, -⟩ :=
    sendWithChannel_spec env s rs "111111111111111111" "222222222222222222"
      "hello" none ch hcache
  rw [hrecv] at h1
  rw [hid] at h2
  exact ⟨h1, h2⟩

/-- Witness for C1 at the concrete environment. -/
theorem compose_happy_path_witness :
    (sendFakeMessage happyEnv emptyState "111111111111111111"
        "222222222222222222" "hello" none).ok = true
    ∧ (sendFakeMessage happyEnv emptyState "111111111111111111"
        "222222222222222222" "hello" none).state.cache =
        DynVal.arr ([] ++
          [⟨"fake-" ++ toString happyEnv.nowMs ++ "-" ++ happyEnv.randSuffix,
            "111111111111111111", "222222222222222222", "hello", none,
            happyEnv.nowMs2, "chan-1"⟩]) :=
  compose_happy_path happyEnv emptyState [] happyChannel rfl rfl rfl
    (by decide) rfl rfl

/-- C6: when both ids are valid, the host modules are available, no existing
DM channel matches the target, and the host's channel-open call rejects, the
compose flow returns `false`, leaves the whole plugin state (in particular
the cache) unchanged, emits exactly one failure toast, and invokes no
callback and no injection. -/
theorem compose_channel_open_failure (env : HostEnv) (s : PluginState)
    (t f content : String) (embed? : Option EmbedInput)
    (hvt : isValidSnowflake t = true) (hvf : isValidSnowflake f = true)
    (hchm : env.channelsModuleOk = true)
    (hmsg : env.messageModuleOk = true)
    (hfind : findDmChannel env.privateChannels t = none)
    (hopen : env.openPrivateChannel t = .error ()) :
    sendFakeMessage env s t f content embed? =
      ⟨false, s,
        [⟨"Failed to create DM channel with target user", .failure, 3000⟩],
        [], []⟩ := by
  unfold sendFakeMessage
  simp [hvt, hvf, hchm, hmsg, hfind, hopen]

/-- Witness for C6 at the concrete environment. -/
theorem compose_channel_open_failure_witness :
    sendFakeMessage rejectEnv emptyState "111111111111111111"
        "222222222222222222" "hello" none =
      ⟨false, emptyState,
        [⟨"Failed to create DM channel with target user", .failure, 3000⟩],
        [], []⟩ :=
  compose_channel_open_failure rejectEnv emptyState "111111111111111111"
    "222222222222222222" "hello" none (by decide) (by decide) rfl rfl
    (by decide) rfl

/-- C7: when validation and channel resolution succeed but the host's
`receiveMessage` throws, the compose flow surfaces the generic failure toast
and returns `false`, yet the newly built record has already been appended to
the cache and stays there — the failure path performs no rollback. -/
theorem compose_injection_failure_keeps_record (env : HostEnv)
    (s : PluginState) (rs : List CachedFakeMessage)
    (t f content : String) (embed? : Option EmbedInput) (ch : DiscordChannel)
    (hcache : s.cache = DynVal.arr rs)
    (hvt : isValidSnowflake t = true) (hvf : isValidSnowflake f = true)
    (hchm : env.channelsModuleOk = true)
    (hmsg : env.messageModuleOk = true)
    (hres : resolvedChannel env t = some ch)
    (hrecv : env.receiveThrows = true) :
    (sendFakeMessage env s t f content embed?).ok = false
    ∧ (sendFakeMessage env s t f content embed?).toasts =
        [⟨"Failed to send fake message", .failure, 3000⟩]
    ∧ (sendFakeMessage env s t f content embed?).state.cache =
        DynVal.arr (rs ++
          [⟨"fake-" ++ toString env.nowMs ++ "-" ++ env.randSuffix,
            t, f, content, embed?, env.nowMs2, ch.id⟩]) := by
  have hsend : sendFakeMessage env s t f content embed? =
      sendWithChannel env s t f content embed? ch := by
    unfold resolvedChannel at hres
    unfold sendFakeMessage
    cases hfd : findDmChannel env.privateChannels t with
    | some ch' =>
      rw [hfd] at hres
      obtain rfl : ch' = ch := Option.some_inj.mp hres
      simp [hvt, hvf, hchm, hmsg, hfd]
    | none =>
      rw [hfd] at hres
      cases hop : env.openPrivateChannel t with
      | error e =>
        rw [hop] at hres
        simp [Except.toOption] at hres
      | ok ch' =>
        rw [hop] at hres
        simp only [Except.toOption, Option.some_inj] at hres
        subst hres
        simp [hvt, hvf, hchm, hmsg, hfd, hop]
  rw [hsend]
  obtain ⟨h1, h2, h3⟩ :=
    sendWithChannel_spec env s rs t f content embed? ch hcache
  rw [hrecv] at h1 h3
  exact ⟨h1, by simpa using h3, h2⟩

/-- Witness for C7 at the concrete environment. -/
theorem compose_injection_failure_keeps_record_witness :
    (sendFakeMessage throwingEnv emptyState "111111111111111111"
        "222222222222222222" "hello" none).ok = false
    ∧ (sendFakeMessage throwingEnv emptyState "111111111111111111"
        "222222222222222222" "hello" none).toasts =
        [⟨"Failed to send fake message", .failure, 3000⟩]
    ∧ (sendFakeMessage throwingEnv emptyState "111111111111111111"
        "222222222222222222" "hello" none).state.cache =
        DynVal.arr ([] ++
          [⟨"fake-" ++ toString throwingEnv.nowMs ++ "-"
              ++ throwingEnv.randSuffix,
            "111111111111111111", "222222222222222222", "hello", none,
            throwingEnv.nowMs2, happyChannel.id⟩]) :=
  compose_injection_failure_keeps_record throwingEnv emptyState []
    "111111111111111111" "222222222222222222" "hello" none happyChannel
    rfl (by decide) (by decide) rfl rfl (by decide) rfl

/-- C8 (counterexample): an embed whose fields are whitespace-only (`" "`),
empty (`""`) and absent does attach a rich-embed structure to the payload —
the gate tests JavaScript truthiness, and a whitespace-only string is
truthy, so the embed list does not stay empty. -/
theorem whitespace_embed_attached :
    (buildPayload "m" "chan-1" "hello"
        ⟨"222222222222222222", "Unknown User", "0000", none, none⟩ "t" "t"
        (some ⟨some " ", some "", none⟩)).embeds.length = 1 := by decide

/-- C8 (amended): the payload carries no embed structure iff the embed
argument is absent or all three of its fields are absent or empty strings;
a whitespace-only field counts as present (JavaScript truthiness, no
trimming) and attaches an embed. -/
theorem embed_attached_iff_truthy (mid cid content : String)
    (u : DiscordUser) (i1 i2 : String) (e? : Option EmbedInput) :
    (buildPayload mid cid content u i1 i2 e?).embeds = []
      ↔ e?.elim True fun e =>
          strTruthy e.title = false ∧ strTruthy e.description = false
            ∧ strTruthy e.imageUrl = false := by
  cases e? with
  | none => simp [buildPayload]
  | some e =>
    cases ht : strTruthy e.title <;> cases hd : strTruthy e.description <;>
      cases hi : strTruthy e.imageUrl <;> simp [buildPayload, ht, hd, hi]

/-- C9 (counterexample): `sendFakeMessage` itself performs no content
validation — with empty content, valid ids and a working host it succeeds
and appends a record, rather than rejecting the request. -/
theorem empty_content_send_succeeds :
    (sendFakeMessage happyEnv emptyState "111111111111111111"
        "222222222222222222" "" none).ok = true
    ∧ (sendFakeMessage happyEnv emptyState "111111111111111111"
        "222222222222222222" "" none).state.cache ≠ DynVal.arr [] := by
  decide

/-- C9 (amended): non-empty trimmed content is a hard gate of the modal's
submit path, not of `sendFakeMessage`: when the trimmed content is empty,
`validateForm` fails and `handleSend` returns without invoking
`sendFakeMessage` at all. -/
theorem modal_blocks_empty_content (st : ModalState)
    (h : jsTrim st.messageContent = "") :
    handleSend st = none := by
  unfold handleSend validateForm
  simp [h]

/-- Witness for the amended C9 theorem on a whitespace-only content field. -/
theorem modal_blocks_empty_content_witness :
    handleSend ⟨"111111111111111111", "222222222222222222", "   ",
        "", "", "", false⟩ = none :=
  modal_blocks_empty_content
    ⟨"111111111111111111", "222222222222222222", "   ", "", "", "", false⟩
    (by decide)
